import Mathlib

/-!
Verification of the hourly-rate calculator and scenario store
(stundensatz-kalkulation-plus, src/lib.py).

Real-valued quantities are modelled as exact rationals; Python's
round(x, 2) is modelled as round-half-to-even at two decimal places.
The SQLite scenario table is modelled as a list of rows together with
the AUTOINCREMENT counter; each store operation is a function on that
state, with a Boolean parameter standing for whether the underlying
database operation succeeds (the try/except around it).
-/

/-- Round a rational to the nearest integer, ties to even
(Python's round applied to an exact value). -/
def roundHalfEven (q : ℚ) : ℤ :=
  let n := ⌊q⌋
  let frac := q - n
  if frac < 1/2 then n
  else if 1/2 < frac then n + 1
  else if n % 2 = 0 then n else n + 1

/-- Round a rational to 2 decimal places, ties to even
(Python's round(x, 2) on an exact value). -/
def round2 (q : ℚ) : ℚ :=
  (roundHalfEven (q * 100) : ℚ) / 100

/-- Body of the try block of calc_hourwages (src/lib.py lines 209-234):
validation raises become Except.error, the happy path returns the
5-tuple (selbstkostensatz, netto, brutto, netto_selbstkosten_diff,
chef_kondensat), each rounded to 2 decimal places at the end. -/
def calc_hourwages_core (worker_amount : ℤ) (individual_costs overhead_costs hours
    earning_percentage vat_percentage : ℚ) (geld_f_chefchen : Bool) :
    Except String (ℚ × ℚ × ℚ × ℚ × ℚ) :=
  if worker_amount ≤ 0 then Except.error "Anzahl Mitarbeitende muss groesser als 0 sein"
  else if hours ≤ 0 then Except.error "Fakturierbare Stunden muessen groesser als 0 sein"
  else
    let gesamt_einzelkosten : ℚ := (worker_amount : ℚ) * individual_costs
    let selbstkosten : ℚ := gesamt_einzelkosten + overhead_costs
    let verrechenbare_stunden : ℚ := (worker_amount : ℚ) * hours
    if verrechenbare_stunden = 0 then
      Except.error "Verrechenbare Stunden duerfen nicht 0 sein"
    else
      let selbstkostensatz := selbstkosten / verrechenbare_stunden
      let netto := selbstkostensatz * (1 + earning_percentage)
      let brutto := netto * (1 + vat_percentage)
      let diff0 := netto - selbstkostensatz
      let chef_kondensat : ℚ := if geld_f_chefchen then diff0 * (0.6 * earning_percentage) else 0
      let netto_selbstkosten_diff := if geld_f_chefchen then diff0 - chef_kondensat else diff0
      let brutto2 := if geld_f_chefchen then brutto - chef_kondensat else brutto
      Except.ok (round2 selbstkostensatz, round2 netto, round2 brutto2,
        round2 netto_selbstkosten_diff, round2 chef_kondensat)

/-- calc_hourwages (src/lib.py lines 190-238): the except branch turns
any raised error into the all-zero 5-tuple. -/
def calc_hourwages (worker_amount : ℤ) (individual_costs overhead_costs hours
    earning_percentage vat_percentage : ℚ) (geld_f_chefchen : Bool) :
    ℚ × ℚ × ℚ × ℚ × ℚ :=
  match calc_hourwages_core worker_amount individual_costs overhead_costs hours
      earning_percentage vat_percentage geld_f_chefchen with
  | Except.ok r => r
  | Except.error _ => (0, 0, 0, 0, 0)

/-- One row of the scenarios table (src/lib.py lines 40-58). -/
structure ScenarioRow where
  id : ℕ
  name : String
  descr : String
  worker_amount : ℤ
  individual_costs : ℚ
  overhead_costs : ℚ
  hours : ℚ
  earning_percentage : ℚ
  vat_percentage : ℚ
  selbstkostensatz : ℚ
  netto : ℚ
  brutto : ℚ
  netto_selbstkosten_diff : ℚ
  geld_fuer_chefchen : ℚ
  created_at : ℕ
deriving DecidableEq, Repr

/-- State of the SQLite database: the rows in insertion order together
with the AUTOINCREMENT counter for the primary key. -/
structure DB where
  rows : List ScenarioRow
  nextId : ℕ
deriving DecidableEq, Repr

/-- Freshly initialized database: no rows, AUTOINCREMENT starts at 1. -/
def DB.empty : DB := ⟨[], 1⟩

/-- The five result columns of a row, in the order calc_hourwages
returns them. -/
def ScenarioRow.results (r : ScenarioRow) : ℚ × ℚ × ℚ × ℚ × ℚ :=
  (r.selbstkostensatz, r.netto, r.brutto, r.netto_selbstkosten_diff, r.geld_fuer_chefchen)

/-- save_scenario (src/lib.py lines 67-111): computes the rates, then
inserts a row; now is the CURRENT_TIMESTAMP default, storageOk models
whether the database operations succeed (the except branch returns -1
and leaves the database unchanged). -/
def save_scenario (name : String) (worker_amount : ℤ) (individual_costs overhead_costs
    hours earning_percentage vat_percentage : ℚ) (descr : String) (chef : Bool)
    (db : DB) (now : ℕ) (storageOk : Bool) : DB × ℤ :=
  let res := calc_hourwages worker_amount individual_costs overhead_costs hours
      earning_percentage vat_percentage chef
  if storageOk then
    let row : ScenarioRow :=
      { id := db.nextId, name := name, descr := descr, worker_amount := worker_amount,
        individual_costs := individual_costs, overhead_costs := overhead_costs,
        hours := hours, earning_percentage := earning_percentage,
        vat_percentage := vat_percentage, selbstkostensatz := res.1, netto := res.2.1,
        brutto := res.2.2.1, netto_selbstkosten_diff := res.2.2.2.1,
        geld_fuer_chefchen := res.2.2.2.2, created_at := now }
    (⟨db.rows ++ [row], db.nextId + 1⟩, (db.nextId : ℤ))
  else (db, -1)

/-- Insert a row into a list kept in descending created_at order,
after all rows whose created_at is at least as large. -/
def insertByCreatedDesc (r : ScenarioRow) : List ScenarioRow → List ScenarioRow
  | [] => [r]
  | x :: xs => if r.created_at ≤ x.created_at then x :: insertByCreatedDesc r xs
               else r :: x :: xs

/-- get_all_scenarios (src/lib.py lines 113-135): SELECT * FROM
scenarios ORDER BY created_at DESC, modelled as an insertion sort of
the stored rows by descending created_at. -/
def get_all_scenarios (db : DB) : List ScenarioRow :=
  db.rows.foldr insertByCreatedDesc []

/-- get_scenario (src/lib.py lines 137-162): SELECT * FROM scenarios
WHERE id = ?, returning the row or none. -/
def get_scenario (scenario_id : ℕ) (db : DB) : Option ScenarioRow :=
  db.rows.find? (fun r => r.id == scenario_id)

/-- delete_scenario (src/lib.py lines 164-188): DELETE FROM scenarios
WHERE id = ?; the Boolean is cursor.rowcount > 0. -/
def delete_scenario (scenario_id : ℕ) (db : DB) : DB × Bool :=
  let rowcount := (db.rows.filter (fun r => r.id == scenario_id)).length
  (⟨db.rows.filter (fun r => r.id != scenario_id), db.nextId⟩, decide (0 < rowcount))

/-- An operation against the store: a save (with its arguments, the
insertion timestamp and whether storage succeeds) or a delete. -/
inductive Op where
  | save (name : String) (worker_amount : ℤ) (individual_costs overhead_costs hours
      earning_percentage vat_percentage : ℚ) (descr : String) (chef : Bool)
      (now : ℕ) (storageOk : Bool)
  | del (scenario_id : ℕ)

/-- Effect of one operation on the database state. -/
def step (db : DB) : Op → DB
  | .save name w ic oc h ep vp d c now ok =>
      (save_scenario name w ic oc h ep vp d c db now ok).1
  | .del i => (delete_scenario i db).1

/-- Database state after a sequence of operations starting from the
freshly initialized store. -/
def run (ops : List Op) : DB := ops.foldl step DB.empty

/-- Arguments of one successful save, for reasoning about sequences of
saves. -/
structure SaveArgs where
  name : String
  worker_amount : ℤ
  individual_costs : ℚ
  overhead_costs : ℚ
  hours : ℚ
  earning_percentage : ℚ
  vat_percentage : ℚ
  descr : String
  chef : Bool
  now : ℕ

/-- Perform one successful save. -/
def doSave (db : DB) (a : SaveArgs) : DB :=
  (save_scenario a.name a.worker_amount a.individual_costs a.overhead_costs a.hours
    a.earning_percentage a.vat_percentage a.descr a.chef db a.now true).1

/-- Database state after a sequence of successful saves on the freshly
initialized store. -/
def runSaves (saves : List SaveArgs) : DB := saves.foldl doSave DB.empty

/-- Characterization of roundHalfEven below the midpoint. -/
lemma roundHalfEven_eq_low (q : ℚ) (n : ℤ) (h1 : (n : ℚ) ≤ q) (h2 : q < n + 1/2) :
    roundHalfEven q = n := by
  have hf : ⌊q⌋ = n := by
    rw [Int.floor_eq_iff]
    exact ⟨h1, by linarith⟩
  simp only [roundHalfEven, hf]
  rw [if_pos]
  linarith

/-- Characterization of roundHalfEven above the midpoint. -/
lemma roundHalfEven_eq_high (q : ℚ) (n : ℤ) (h1 : (n : ℚ) + 1/2 < q) (h2 : q < n + 1) :
    roundHalfEven q = n + 1 := by
  have hf : ⌊q⌋ = n := by
    rw [Int.floor_eq_iff]
    exact ⟨by linarith, by linarith⟩
  simp only [roundHalfEven, hf]
  rw [if_neg, if_pos]
  · linarith
  · linarith

/-- Evaluation rule for round2 when the scaled value is below the
midpoint. -/
lemma round2_eq_low (q : ℚ) (n : ℤ) (h1 : (n : ℚ) ≤ q * 100) (h2 : q * 100 < n + 1/2) :
    round2 q = (n : ℚ) / 100 := by
  rw [round2, roundHalfEven_eq_low (q * 100) n h1 h2]

/-- Evaluation rule for round2 when the scaled value is above the
midpoint. -/
lemma round2_eq_high (q : ℚ) (n : ℤ) (h1 : (n : ℚ) + 1/2 < q * 100) (h2 : q * 100 < n + 1) :
    round2 q = ((n : ℚ) + 1) / 100 := by
  rw [round2, roundHalfEven_eq_high (q * 100) n h1 h2]
  push_cast
  ring

/-- Rounding an exact zero gives zero. -/
@[simp] lemma round2_zero : round2 0 = 0 := by
  have h0 : (0 : ℚ) * 100 = 0 := by norm_num
  rw [round2, h0, roundHalfEven_eq_low 0 0 (by norm_num) (by norm_num)]
  norm_num

/-- Evaluation of calc_hourwages on valid inputs with redistribution
disabled, in terms of the self-cost rate. -/
lemma calc_hourwages_pos_false (w : ℤ) (ic oc h m v : ℚ) (hw : 0 < w) (hh : 0 < h) :
    calc_hourwages w ic oc h m v false =
      (round2 (((w : ℚ) * ic + oc) / ((w : ℚ) * h)),
       round2 (((w : ℚ) * ic + oc) / ((w : ℚ) * h) * (1 + m)),
       round2 (((w : ℚ) * ic + oc) / ((w : ℚ) * h) * (1 + m) * (1 + v)),
       round2 (((w : ℚ) * ic + oc) / ((w : ℚ) * h) * (1 + m) -
         ((w : ℚ) * ic + oc) / ((w : ℚ) * h)),
       round2 0) := by
  have hwq : (0 : ℚ) < (w : ℚ) := by exact_mod_cast hw
  have hvz : (w : ℚ) * h ≠ 0 := ne_of_gt (mul_pos hwq hh)
  simp only [calc_hourwages, calc_hourwages_core, if_neg (not_le.mpr hw),
    if_neg (not_le.mpr hh), if_neg hvz]
  simp

/-- Evaluation of calc_hourwages on valid inputs with redistribution
enabled, in terms of the self-cost rate. -/
lemma calc_hourwages_pos_true (w : ℤ) (ic oc h m v : ℚ) (hw : 0 < w) (hh : 0 < h) :
    calc_hourwages w ic oc h m v true =
      (round2 (((w : ℚ) * ic + oc) / ((w : ℚ) * h)),
       round2 (((w : ℚ) * ic + oc) / ((w : ℚ) * h) * (1 + m)),
       round2 (((w : ℚ) * ic + oc) / ((w : ℚ) * h) * (1 + m) * (1 + v) -
         (((w : ℚ) * ic + oc) / ((w : ℚ) * h) * (1 + m) -
           ((w : ℚ) * ic + oc) / ((w : ℚ) * h)) * (0.6 * m)),
       round2 ((((w : ℚ) * ic + oc) / ((w : ℚ) * h) * (1 + m) -
         ((w : ℚ) * ic + oc) / ((w : ℚ) * h)) -
         (((w : ℚ) * ic + oc) / ((w : ℚ) * h) * (1 + m) -
           ((w : ℚ) * ic + oc) / ((w : ℚ) * h)) * (0.6 * m)),
       round2 ((((w : ℚ) * ic + oc) / ((w : ℚ) * h) * (1 + m) -
         ((w : ℚ) * ic + oc) / ((w : ℚ) * h)) * (0.6 * m))) := by
  have hwq : (0 : ℚ) < (w : ℚ) := by exact_mod_cast hw
  have hvz : (w : ℚ) * h ≠ 0 := ne_of_gt (mul_pos hwq hh)
  simp only [calc_hourwages, calc_hourwages_core, if_neg (not_le.mpr hw),
    if_neg (not_le.mpr hh), if_neg hvz]
  simp

/-- Invalid inputs (non-positive worker count or hours) make
calc_hourwages return the all-zero fallback tuple. -/
lemma calc_hourwages_invalid (w : ℤ) (ic oc h m v : ℚ) (chef : Bool)
    (hinv : w ≤ 0 ∨ h ≤ 0) :
    calc_hourwages w ic oc h m v chef = (0, 0, 0, 0, 0) := by
  rcases hinv with hw | hh
  · simp [calc_hourwages, calc_hourwages_core, if_pos hw]
  · by_cases hw : w ≤ 0
    · simp [calc_hourwages, calc_hourwages_core, if_pos hw]
    · simp [calc_hourwages, calc_hourwages_core, if_neg hw, if_pos hh]

/-- C1: for worker_count > 0 and billable_hours_per_worker > 0,
calc_hourwages with redistribution disabled returns exactly the five
values self_cost_rate = (worker_count * cost_per_worker + overhead) /
(worker_count * hours), net = self * (1 + margin), gross = net *
(1 + vat), diff = net - self, and redistribution_amount = 0, each
rounded to 2 decimal places once at the end. -/
theorem c1_rates_formula_disabled (w : ℤ) (ic oc h m v : ℚ) (hw : 0 < w) (hh : 0 < h) :
    calc_hourwages w ic oc h m v false =
      (round2 (((w : ℚ) * ic + oc) / ((w : ℚ) * h)),
       round2 (((w : ℚ) * ic + oc) / ((w : ℚ) * h) * (1 + m)),
       round2 (((w : ℚ) * ic + oc) / ((w : ℚ) * h) * (1 + m) * (1 + v)),
       round2 (((w : ℚ) * ic + oc) / ((w : ℚ) * h) * (1 + m) -
         ((w : ℚ) * ic + oc) / ((w : ℚ) * h)),
       0) := by
  rw [calc_hourwages_pos_false w ic oc h m v hw hh, round2_zero]

/-- Witness for C1 at worker_count 2, cost 100, overhead 50, hours 10,
margin 1/2, vat 1/4. -/
theorem c1_rates_formula_disabled_witness :
    (0 : ℤ) < 2 ∧ (0 : ℚ) < 10 ∧
      calc_hourwages 2 100 50 10 (1/2) (1/4) false =
        (round2 ((((2 : ℤ) : ℚ) * 100 + 50) / (((2 : ℤ) : ℚ) * 10)),
         round2 ((((2 : ℤ) : ℚ) * 100 + 50) / (((2 : ℤ) : ℚ) * 10) * (1 + 1/2)),
         round2 ((((2 : ℤ) : ℚ) * 100 + 50) / (((2 : ℤ) : ℚ) * 10) * (1 + 1/2) * (1 + 1/4)),
         round2 ((((2 : ℤ) : ℚ) * 100 + 50) / (((2 : ℤ) : ℚ) * 10) * (1 + 1/2) -
           (((2 : ℤ) : ℚ) * 100 + 50) / (((2 : ℤ) : ℚ) * 10)),
         0) := by
  exact ⟨by norm_num, by norm_num,
    c1_rates_formula_disabled 2 100 50 10 (1/2) (1/4) (by norm_num) (by norm_num)⟩

/-- C4: with redistribution enabled and valid inputs, the returned
redistribution amount is (net - self) * 0.6 * margin computed from the
unreduced diff, the diff and the gross rate have that amount subtracted
before the single final rounding, and the gross rate equals the
disabled-case unrounded gross minus the redistribution amount, rounded
once. -/
theorem c4_redistribution_order (w : ℤ) (ic oc h m v : ℚ) (hw : 0 < w) (hh : 0 < h) :
    calc_hourwages w ic oc h m v true =
      (round2 (((w : ℚ) * ic + oc) / ((w : ℚ) * h)),
       round2 (((w : ℚ) * ic + oc) / ((w : ℚ) * h) * (1 + m)),
       round2 (((w : ℚ) * ic + oc) / ((w : ℚ) * h) * (1 + m) * (1 + v) -
         (((w : ℚ) * ic + oc) / ((w : ℚ) * h) * (1 + m) -
           ((w : ℚ) * ic + oc) / ((w : ℚ) * h)) * (0.6 * m)),
       round2 ((((w : ℚ) * ic + oc) / ((w : ℚ) * h) * (1 + m) -
         ((w : ℚ) * ic + oc) / ((w : ℚ) * h)) -
         (((w : ℚ) * ic + oc) / ((w : ℚ) * h) * (1 + m) -
           ((w : ℚ) * ic + oc) / ((w : ℚ) * h)) * (0.6 * m)),
       round2 ((((w : ℚ) * ic + oc) / ((w : ℚ) * h) * (1 + m) -
         ((w : ℚ) * ic + oc) / ((w : ℚ) * h)) * (0.6 * m))) ∧
    (calc_hourwages w ic oc h m v false).2.2.1 =
      round2 (((w : ℚ) * ic + oc) / ((w : ℚ) * h) * (1 + m) * (1 + v)) := by
  refine ⟨calc_hourwages_pos_true w ic oc h m v hw hh, ?_⟩
  rw [calc_hourwages_pos_false w ic oc h m v hw hh]

/-- Witness for C4 at worker_count 2, cost 100, overhead 50, hours 10,
margin 1/2, vat 1/4. -/
theorem c4_redistribution_order_witness :
    (0 : ℤ) < 2 ∧ (0 : ℚ) < 10 ∧
      (calc_hourwages 2 100 50 10 (1/2) (1/4) true =
        (round2 ((((2 : ℤ) : ℚ) * 100 + 50) / (((2 : ℤ) : ℚ) * 10)),
         round2 ((((2 : ℤ) : ℚ) * 100 + 50) / (((2 : ℤ) : ℚ) * 10) * (1 + 1/2)),
         round2 ((((2 : ℤ) : ℚ) * 100 + 50) / (((2 : ℤ) : ℚ) * 10) * (1 + 1/2) * (1 + 1/4) -
           ((((2 : ℤ) : ℚ) * 100 + 50) / (((2 : ℤ) : ℚ) * 10) * (1 + 1/2) -
             (((2 : ℤ) : ℚ) * 100 + 50) / (((2 : ℤ) : ℚ) * 10)) * (0.6 * (1/2))),
         round2 (((((2 : ℤ) : ℚ) * 100 + 50) / (((2 : ℤ) : ℚ) * 10) * (1 + 1/2) -
           (((2 : ℤ) : ℚ) * 100 + 50) / (((2 : ℤ) : ℚ) * 10)) -
           ((((2 : ℤ) : ℚ) * 100 + 50) / (((2 : ℤ) : ℚ) * 10) * (1 + 1/2) -
             (((2 : ℤ) : ℚ) * 100 + 50) / (((2 : ℤ) : ℚ) * 10)) * (0.6 * (1/2))),
         round2 (((((2 : ℤ) : ℚ) * 100 + 50) / (((2 : ℤ) : ℚ) * 10) * (1 + 1/2) -
           (((2 : ℤ) : ℚ) * 100 + 50) / (((2 : ℤ) : ℚ) * 10)) * (0.6 * (1/2)))) ∧
      (calc_hourwages 2 100 50 10 (1/2) (1/4) false).2.2.1 =
        round2 ((((2 : ℤ) : ℚ) * 100 + 50) / (((2 : ℤ) : ℚ) * 10) * (1 + 1/2) * (1 + 1/4))) := by
  exact ⟨by norm_num, by norm_num,
    c4_redistribution_order 2 100 50 10 (1/2) (1/4) (by norm_num) (by norm_num)⟩

/-- C5 counterexample: on the spec's worked example the code returns a
self-cost rate of 58.70 and a net rate of 67.50, not the claimed 60.19
and 69.22. -/
theorem c5_spec_example_counterexample :
    ¬((calc_hourwages 8 60000 230000 1512 (15/100) (19/100) false).1 = 6019/100 ∧
      (calc_hourwages 8 60000 230000 1512 (15/100) (19/100) false).2.1 = 6922/100) := by
  rw [calc_hourwages_pos_false 8 60000 230000 1512 (15/100) (19/100)
    (by norm_num) (by norm_num)]
  rw [round2_eq_high _ 5869 (by norm_num) (by norm_num),
      round2_eq_low _ 6750 (by norm_num) (by norm_num)]
  norm_num

/-- C5 amended: the worked example returns self_cost_rate 58.70, net
rate 67.50, gross rate 80.33, diff 8.80 and redistribution 0. -/
theorem c5_example_values :
    calc_hourwages 8 60000 230000 1512 (15/100) (19/100) false =
      (587/10, 135/2, 8033/100, 44/5, 0) := by
  rw [calc_hourwages_pos_false 8 60000 230000 1512 (15/100) (19/100)
    (by norm_num) (by norm_num)]
  rw [round2_eq_high _ 5869 (by norm_num) (by norm_num),
      round2_eq_low _ 6750 (by norm_num) (by norm_num),
      round2_eq_high _ 8032 (by norm_num) (by norm_num),
      round2_eq_low _ 880 (by norm_num) (by norm_num),
      round2_zero]
  norm_num

/-- C2 code behavior: with worker_amount 0 the validation inside the
try block raises (the core errors), but calc_hourwages swallows the
error and returns the all-zero tuple instead of a distinguishable
failure. -/
theorem c2_invalid_input_swallowed :
    calc_hourwages_core 0 60000 230000 1512 (15/100) (19/100) false =
      Except.error "Anzahl Mitarbeitende muss groesser als 0 sein" ∧
    calc_hourwages 0 60000 230000 1512 (15/100) (19/100) false = (0, 0, 0, 0, 0) ∧
    calc_hourwages 8 60000 230000 1512 (15/100) 0 false ≠ (0, 0, 0, 0, 0) := by
  refine ⟨rfl, by decide, ?_⟩
  rw [calc_hourwages_pos_false 8 60000 230000 1512 (15/100) 0
    (by norm_num) (by norm_num)]
  rw [round2_eq_high _ 5869 (by norm_num) (by norm_num)]
  intro hcontra
  have h1 := congrArg Prod.fst hcontra
  norm_num at h1

/-- C9: calc_hourwages is total; on any input with non-positive worker
count or non-positive hours it returns exactly the all-zero 5-tuple,
which coincides with the legitimate result of a zero-cost scenario. -/
theorem c9_total_zero_on_invalid (w : ℤ) (ic oc h m v : ℚ) (chef : Bool)
    (hinv : w ≤ 0 ∨ h ≤ 0) :
    calc_hourwages w ic oc h m v chef = (0, 0, 0, 0, 0) ∧
    calc_hourwages 1 0 0 1 0 0 false = (0, 0, 0, 0, 0) := by
  refine ⟨calc_hourwages_invalid w ic oc h m v chef hinv, ?_⟩
  rw [calc_hourwages_pos_false 1 0 0 1 0 0 (by norm_num) (by norm_num)]
  norm_num

/-- Witness for C9 at worker_amount 0 on the spec's example numbers. -/
theorem c9_total_zero_on_invalid_witness :
    ((0 : ℤ) ≤ 0 ∨ (1512 : ℚ) ≤ 0) ∧
      (calc_hourwages 0 60000 230000 1512 (15/100) (19/100) true = (0, 0, 0, 0, 0) ∧
       calc_hourwages 1 0 0 1 0 0 false = (0, 0, 0, 0, 0)) :=
  ⟨Or.inl le_rfl,
   c9_total_zero_on_invalid 0 60000 230000 1512 (15/100) (19/100) true (Or.inl le_rfl)⟩

/-- C6 counterexample: saving with an empty name and an invalid worker
count of 0 does not fail; it persists a row with all-zero results and
returns the newly assigned identifier 1. -/
theorem c6_save_no_validation_counterexample :
    save_scenario "" 0 60000 230000 1512 (15/100) (19/100) "" false DB.empty 7 true =
      (⟨[⟨1, "", "", 0, 60000, 230000, 1512, 15/100, 19/100, 0, 0, 0, 0, 0, 7⟩], 2⟩, 1) :=
  rfl

/-- C6 amended: save_scenario never validates the name and never
propagates an engine failure; with a working store it persists a row
holding the caller's inputs and whatever calc_hourwages returned
(the all-zero fallback included) and returns the newly assigned
identifier, and it returns -1 exactly when the storage operation
fails. -/
theorem c6_save_behavior (name : String) (w : ℤ) (ic oc h m v : ℚ) (d : String)
    (chef : Bool) (db : DB) (now : ℕ) :
    save_scenario name w ic oc h m v d chef db now true =
      (⟨db.rows ++ [⟨db.nextId, name, d, w, ic, oc, h, m, v,
        (calc_hourwages w ic oc h m v chef).1,
        (calc_hourwages w ic oc h m v chef).2.1,
        (calc_hourwages w ic oc h m v chef).2.2.1,
        (calc_hourwages w ic oc h m v chef).2.2.2.1,
        (calc_hourwages w ic oc h m v chef).2.2.2.2,
        now⟩], db.nextId + 1⟩, (db.nextId : ℤ)) ∧
    save_scenario name w ic oc h m v d chef db now false = (db, -1) :=
  ⟨rfl, rfl⟩

/-- C10: on invalid numeric inputs with a working store, save_scenario
persists a row whose five result columns are all zero together with
the caller-supplied inputs, and returns the positive fresh identifier;
it returns -1 with the store unchanged exactly when the database
operation itself fails. -/
theorem c10_save_invalid_persists_zeros (name : String) (w : ℤ) (ic oc h m v : ℚ)
    (d : String) (chef : Bool) (db : DB) (now : ℕ)
    (hinv : w ≤ 0 ∨ h ≤ 0) (hpos : 0 < db.nextId) :
    save_scenario name w ic oc h m v d chef db now true =
      (⟨db.rows ++ [⟨db.nextId, name, d, w, ic, oc, h, m, v, 0, 0, 0, 0, 0, now⟩],
        db.nextId + 1⟩, (db.nextId : ℤ)) ∧
    (0 : ℤ) < (save_scenario name w ic oc h m v d chef db now true).2 ∧
    save_scenario name w ic oc h m v d chef db now false = (db, -1) := by
  have hz := calc_hourwages_invalid w ic oc h m v chef hinv
  refine ⟨by simp [save_scenario, hz], ?_, rfl⟩
  simp only [save_scenario, hz, if_pos]
  exact_mod_cast hpos

/-- Witness for C10: empty name, worker count 0 on the freshly
initialized store. -/
theorem c10_save_invalid_persists_zeros_witness :
    (((0 : ℤ) ≤ 0 ∨ (1512 : ℚ) ≤ 0) ∧ 0 < DB.empty.nextId) ∧
      (save_scenario "" 0 60000 230000 1512 (15/100) (19/100) "" false DB.empty 7 true =
        (⟨DB.empty.rows ++ [⟨DB.empty.nextId, "", "", 0, 60000, 230000, 1512,
          15/100, 19/100, 0, 0, 0, 0, 0, 7⟩], DB.empty.nextId + 1⟩,
          (DB.empty.nextId : ℤ)) ∧
       (0 : ℤ) < (save_scenario "" 0 60000 230000 1512 (15/100) (19/100) "" false
          DB.empty 7 true).2 ∧
       save_scenario "" 0 60000 230000 1512 (15/100) (19/100) "" false DB.empty 7 false =
        (DB.empty, -1)) :=
  ⟨⟨Or.inl le_rfl, Nat.one_pos⟩,
   c10_save_invalid_persists_zeros "" 0 60000 230000 1512 (15/100) (19/100) "" false
     DB.empty 7 (Or.inl le_rfl) Nat.one_pos⟩

/-- C8: delete_scenario reports true exactly when a row with the given
identifier existed (and was removed), and on a miss it reports false
and leaves the stored scenarios unchanged. -/
theorem c8_delete_iff (db : DB) (i : ℕ) :
    ((delete_scenario i db).2 = true ↔ ∃ r ∈ db.rows, r.id = i) ∧
    ((∀ r ∈ db.rows, r.id ≠ i) → (delete_scenario i db).1 = db) := by
  constructor
  · simp only [delete_scenario, decide_eq_true_eq]
    rw [List.length_pos]
    constructor
    · intro h
      obtain ⟨r, hr⟩ := List.exists_mem_of_ne_nil _ h
      have hm := List.mem_filter.mp hr
      exact ⟨r, hm.1, by simpa using hm.2⟩
    · rintro ⟨r, hrl, hri⟩ hnil
      have hmem : r ∈ db.rows.filter (fun r => r.id == i) :=
        List.mem_filter.mpr ⟨hrl, by simpa using hri⟩
      simp [hnil] at hmem
  · intro hnone
    have hfil : db.rows.filter (fun r => r.id != i) = db.rows := by
      rw [List.filter_eq_self]
      intro a ha
      simpa using hnone a ha
    simp only [delete_scenario, hfil]

/-- Witness for C8 on a one-row store and the absent identifier 5. -/
theorem c8_delete_iff_witness :
    ((delete_scenario 5 ⟨[⟨1, "a", "", 1, 0, 0, 1, 0, 0, 0, 0, 0, 0, 0, 3⟩], 2⟩).2 = true ↔
      ∃ r ∈ (DB.mk [⟨1, "a", "", 1, 0, 0, 1, 0, 0, 0, 0, 0, 0, 0, 3⟩] 2).rows, r.id = 5) ∧
    ((∀ r ∈ (DB.mk [⟨1, "a", "", 1, 0, 0, 1, 0, 0, 0, 0, 0, 0, 0, 3⟩] 2).rows, r.id ≠ 5) →
      (delete_scenario 5 ⟨[⟨1, "a", "", 1, 0, 0, 1, 0, 0, 0, 0, 0, 0, 0, 3⟩], 2⟩).1 =
        ⟨[⟨1, "a", "", 1, 0, 0, 1, 0, 0, 0, 0, 0, 0, 0, 3⟩], 2⟩) :=
  c8_delete_iff ⟨[⟨1, "a", "", 1, 0, 0, 1, 0, 0, 0, 0, 0, 0, 0, 3⟩], 2⟩ 5

/-- Invariant: every stored row's five result columns are exactly what
calc_hourwages produces from the row's own stored input columns, for
the redistribution flag used at save time. -/
def ResultsMatch (db : DB) : Prop :=
  ∀ r ∈ db.rows, ∃ chef : Bool,
    r.results = calc_hourwages r.worker_amount r.individual_costs r.overhead_costs
      r.hours r.earning_percentage r.vat_percentage chef

/-- Every store operation preserves the results invariant. -/
lemma resultsMatch_step (db : DB) (op : Op) (h : ResultsMatch db) :
    ResultsMatch (step db op) := by
  cases op with
  | save n w ic oc hh ep vp d c now ok =>
    cases ok with
    | false => exact h
    | true =>
      intro r hr
      simp only [step, save_scenario] at hr
      rcases List.mem_append.mp hr with hmem | hmem
      · exact h r hmem
      · obtain rfl := List.mem_singleton.mp hmem
        exact ⟨c, rfl⟩
  | del i =>
    intro r hr
    simp only [step, delete_scenario] at hr
    exact h r (List.mem_of_mem_filter hr)

/-- The results invariant holds along any fold of operations. -/
lemma resultsMatch_foldl (ops : List Op) :
    ∀ db, ResultsMatch db → ResultsMatch (ops.foldl step db) := by
  induction ops with
  | nil => intro db h; exact h
  | cons op t ih => intro db h; exact ih _ (resultsMatch_step db op h)

/-- C3: in any store state reachable by saves and deletes, a scenario
retrieved by id carries result columns that are exactly what
calc_hourwages produces from its stored input columns (with the
redistribution flag chosen at save time); no operation ever rewrites
them. -/
theorem c3_persisted_results_match (ops : List Op) (i : ℕ) (r : ScenarioRow)
    (h : get_scenario i (run ops) = some r) :
    ∃ chef : Bool,
      r.results = calc_hourwages r.worker_amount r.individual_costs r.overhead_costs
        r.hours r.earning_percentage r.vat_percentage chef := by
  have hmem : r ∈ (run ops).rows := List.mem_of_find?_eq_some h
  exact resultsMatch_foldl ops DB.empty
    (fun r hr => absurd hr (List.not_mem_nil r)) r hmem

/-- Witness for C3: one save of a zero-cost scenario, retrieved by its
identifier 1. -/
theorem c3_persisted_results_match_witness :
    get_scenario 1 (run [Op.save "n" 1 0 0 1 0 0 "" false 5 true]) =
      some ⟨1, "n", "", 1, 0, 0, 1, 0, 0, 0, 0, 0, 0, 0, 5⟩ ∧
    ∃ chef : Bool,
      ScenarioRow.results ⟨1, "n", "", 1, 0, 0, 1, 0, 0, 0, 0, 0, 0, 0, 5⟩ =
        calc_hourwages 1 0 0 1 0 0 chef := by
  have hcalc : calc_hourwages 1 0 0 1 0 0 false = (0, 0, 0, 0, 0) := by
    rw [calc_hourwages_pos_false 1 0 0 1 0 0 (by norm_num) (by norm_num)]
    norm_num
  have hget : get_scenario 1 (run [Op.save "n" 1 0 0 1 0 0 "" false 5 true]) =
      some ⟨1, "n", "", 1, 0, 0, 1, 0, 0, 0, 0, 0, 0, 0, 5⟩ := by
    have hrun : run [Op.save "n" 1 0 0 1 0 0 "" false 5 true] =
        ⟨[⟨1, "n", "", 1, 0, 0, 1, 0, 0, 0, 0, 0, 0, 0, 5⟩], 2⟩ := by
      simp [run, step, save_scenario, hcalc, DB.empty]
    rw [hrun]
    rfl
  exact ⟨hget, c3_persisted_results_match _ 1 _ hget⟩

/-- Inserting a row whose created_at is minimal puts it at the end. -/
lemma insertByCreatedDesc_of_le (a : ScenarioRow) (l : List ScenarioRow)
    (hall : ∀ x ∈ l, a.created_at ≤ x.created_at) :
    insertByCreatedDesc a l = l ++ [a] := by
  induction l with
  | nil => rfl
  | cons x xs ih =>
    rw [insertByCreatedDesc, if_pos (hall x (List.mem_cons_self x xs)),
      ih (fun y hy => hall y (List.mem_cons_of_mem x hy))]
    rfl

/-- Sorting by descending created_at reverses a list whose created_at
values are strictly increasing. -/
lemma get_all_of_sorted_asc (l : List ScenarioRow)
    (h : l.Pairwise (fun p q => p.created_at < q.created_at)) :
    l.foldr insertByCreatedDesc [] = l.reverse := by
  induction l with
  | nil => rfl
  | cons a t ih =>
    rw [List.foldr_cons, ih (List.Pairwise.of_cons h), insertByCreatedDesc_of_le]
    · simp
    · intro x hx
      exact le_of_lt ((List.pairwise_cons.mp h).1 x (List.mem_reverse.mp hx))

/-- Successful saves append rows whose created_at values are the
requested timestamps, in order. -/
lemma rows_map_created_foldl (saves : List SaveArgs) :
    ∀ db : DB, ((saves.foldl doSave db).rows).map (fun r => r.created_at) =
      db.rows.map (fun r => r.created_at) ++ saves.map (fun a => a.now) := by
  induction saves with
  | nil => intro db; simp
  | cons a t ih =>
    intro db
    rw [List.foldl_cons, ih]
    simp [doSave, save_scenario]

/-- C7: after any sequence of N successful saves with strictly
increasing timestamps, get_all_scenarios returns exactly the N stored
rows ordered most recently created first (the reverse of creation
order), and it returns the empty list on the fresh store. -/
theorem c7_list_all_newest_first (saves : List SaveArgs)
    (hmono : (saves.map (fun a => a.now)).Pairwise (· < ·)) :
    get_all_scenarios (runSaves saves) = (runSaves saves).rows.reverse ∧
    (runSaves saves).rows.length = saves.length ∧
    ((get_all_scenarios (runSaves saves)).map (fun r => r.created_at)) =
      (saves.map (fun a => a.now)).reverse ∧
    get_all_scenarios DB.empty = [] := by
  have hmap : ((runSaves saves).rows).map (fun r => r.created_at) =
      saves.map (fun a => a.now) := by
    simpa [runSaves, DB.empty] using rows_map_created_foldl saves DB.empty
  have hpw : ((runSaves saves).rows).Pairwise (fun p q => p.created_at < q.created_at) := by
    have h2 := hmono
    rw [← hmap] at h2
    exact List.pairwise_map.mp h2
  have hsort : get_all_scenarios (runSaves saves) = (runSaves saves).rows.reverse :=
    get_all_of_sorted_asc _ hpw
  refine ⟨hsort, ?_, ?_, rfl⟩
  · simpa using congrArg List.length hmap
  · rw [hsort, List.map_reverse, hmap]

/-- Witness for C7: two saves at timestamps 1 and 2. -/
theorem c7_list_all_newest_first_witness :
    ((List.map (fun a => a.now)
      [(⟨"a", 1, 0, 0, 1, 0, 0, "", false, 1⟩ : SaveArgs),
       (⟨"b", 1, 0, 0, 1, 0, 0, "", false, 2⟩ : SaveArgs)]).Pairwise (· < ·)) ∧
    (get_all_scenarios (runSaves
      [(⟨"a", 1, 0, 0, 1, 0, 0, "", false, 1⟩ : SaveArgs),
       (⟨"b", 1, 0, 0, 1, 0, 0, "", false, 2⟩ : SaveArgs)]) =
      (runSaves
        [(⟨"a", 1, 0, 0, 1, 0, 0, "", false, 1⟩ : SaveArgs),
         (⟨"b", 1, 0, 0, 1, 0, 0, "", false, 2⟩ : SaveArgs)]).rows.reverse ∧
     (runSaves
        [(⟨"a", 1, 0, 0, 1, 0, 0, "", false, 1⟩ : SaveArgs),
         (⟨"b", 1, 0, 0, 1, 0, 0, "", false, 2⟩ : SaveArgs)]).rows.length = 2 ∧
     ((get_all_scenarios (runSaves
        [(⟨"a", 1, 0, 0, 1, 0, 0, "", false, 1⟩ : SaveArgs),
         (⟨"b", 1, 0, 0, 1, 0, 0, "", false, 2⟩ : SaveArgs)])).map (fun r => r.created_at)) =
      [2, 1] ∧
     get_all_scenarios DB.empty = []) := by
  have hpw : (List.map (fun a => a.now)
      [(⟨"a", 1, 0, 0, 1, 0, 0, "", false, 1⟩ : SaveArgs),
       (⟨"b", 1, 0, 0, 1, 0, 0, "", false, 2⟩ : SaveArgs)]).Pairwise (· < ·) := by
    simp
  have h := c7_list_all_newest_first
    [(⟨"a", 1, 0, 0, 1, 0, 0, "", false, 1⟩ : SaveArgs),
     (⟨"b", 1, 0, 0, 1, 0, 0, "", false, 2⟩ : SaveArgs)] hpw
  exact ⟨hpw, h.1, h.2.1, by simpa using h.2.2.1, h.2.2.2⟩
